import Mathlib

/-!
# Board bring-up of the HPM6300 evaluation board (board.c)

A shallow embedding of `bsp/hpmicro/libraries/hpm_sdk/boards/hpm6300evk/board.c`.

* Machine words are natural numbers; arithmetic that can wrap is reduced modulo `2^32`.
* Peripheral handles are base addresses (natural numbers).  The base addresses and the
  other constants and macros that board.c takes from headers outside this file are the
  fields of `Platform`; every theorem holds for every platform.
* The vendor drivers (clock, sdxc, gptmr, pmp) are not part of board.c.  Each driver call
  that writes hardware is a constructor of `hal_call`; calling it updates the register
  model `Hw` and appends the call to the trace of the system state `Sys`.
* A call of board.c is a function on `Sys`, returning the C return value when there is one.
-/

namespace Hpm6300evk

/-- Clock names (`clock_name_t`): the names board.c refers to. -/
inductive clock_name_t where
  | clock_cpu0 | clock_axi | clock_ahb | clock_ahbp | clock_axic | clock_axis
  | clock_mchtmr0 | clock_dram | clock_xpi0 | clock_xpi1
  | clock_gptmr0 | clock_gptmr1 | clock_gptmr2 | clock_gptmr3
  | clock_uart0 | clock_uart1 | clock_uart2 | clock_uart3
  | clock_i2c0 | clock_i2c1 | clock_i2c2 | clock_i2c3
  | clock_spi0 | clock_spi1 | clock_spi2 | clock_spi3
  | clock_can0 | clock_can1 | clock_sdxc0 | clock_ptpc | clock_ref0 | clock_ref1
  | clock_watchdog0 | clock_eth0 | clock_sdp | clock_xdma | clock_ram0 | clock_usb0
  | clock_kman | clock_gpio | clock_mbx0 | clock_hdma | clock_rng | clock_mot0 | clock_mot1
  | clock_acmp | clock_dao | clock_msyn | clock_lmm0 | clock_pdm
  | clock_adc0 | clock_adc1 | clock_adc2 | clock_dac0 | clock_i2s0 | clock_i2s1
  | clock_ffa0 | clock_tsns | clock_ana0 | clock_ana3 | clock_ptp0
  deriving DecidableEq, Repr

/-- Clock sources (`clk_src_t`): the sources board.c selects. -/
inductive clk_src_t where
  | clk_src_osc24m | clk_src_pll0_clk0 | clk_src_pll0_clk1 | clk_src_pll0_clk2
  | clk_src_pll1_clk0 | clk_src_pll1_clk1
  deriving DecidableEq, Repr

/-- ADC clock multiplexer inputs. -/
inductive clk_adc_src_t where
  | clk_adc_src_ahb | clk_adc_src_ana
  deriving DecidableEq, Repr

/-- DAC clock multiplexer inputs. -/
inductive clk_dac_src_t where
  | clk_dac_src_ahb | clk_dac_src_ana
  deriving DecidableEq, Repr

/-- Status codes (`hpm_stat_t`) returned by the Ethernet clock routines. -/
inductive hpm_stat_t where
  | status_success | status_invalid_argument
  deriving DecidableEq, Repr

/-- One PMP/PMA entry (`pmp_entry_t`): the four words board.c assigns. -/
structure pmp_entry_t where
  pmp_addr : Nat
  pmp_cfg : Nat
  pma_addr : Nat
  pma_cfg : Nat
  deriving DecidableEq, Repr

/-- Modelled from the spec: the constants and macros board.c takes from headers that are
not part of this file (SoC base addresses, board.h, the gptmr and pmp register macros, the
PLL reference frequency) and the frequency of each clock source.  They are parameters. -/
structure Platform where
  HPM_SPI3 : Nat
  HPM_ADC0_BASE : Nat
  HPM_ADC1_BASE : Nat
  HPM_ADC2_BASE : Nat
  HPM_DAC : Nat
  HPM_CAN0 : Nat
  HPM_CAN1 : Nat
  HPM_UART0 : Nat
  HPM_UART1 : Nat
  HPM_UART2 : Nat
  HPM_SDXC0 : Nat
  HPM_ENET0 : Nat
  BOARD_CALLBACK_TIMER : Nat
  BOARD_CALLBACK_TIMER_CH : Nat
  BOARD_CALLBACK_TIMER_IRQ : Nat
  BOARD_CALLBACK_TIMER_CLK_NAME : clock_name_t
  /-- Bit position of the reload status flag of a channel in the timer status register. -/
  rld_stat_bit : Nat → Nat
  /-- Bit position of the reload interrupt enable of a channel. -/
  rld_irq_bit : Nat → Nat
  PLLCTL_SOC_PLL_REFCLK_FREQ : Nat
  /-- Frequency in Hz of each clock source. -/
  clk_src_freq : clk_src_t → Nat
  PMP_NAPOT_ADDR : Nat → Nat → Nat
  PMA_NAPOT_ADDR : Nat → Nat → Nat
  PMP_CFG : Nat → Nat → Nat → Nat → Nat → Nat
  PMA_CFG : Nat → Nat → Nat → Nat
  READ_EN : Nat
  WRITE_EN : Nat
  EXECUTE_EN : Nat
  ADDR_MATCH_NAPOT : Nat
  REG_UNLOCK : Nat
  MEM_TYPE_MEM_NON_CACHE_BUF : Nat
  AMO_EN : Nat

/-- Modelled from the spec: the register state the drivers act on.  Each clock has a source
selector and an integer divider, each clock group is a set of clocks, the SDXC and timer
registers are indexed by the base address of the instance. -/
@[ext]
structure Hw where
  clk_src : clock_name_t → clk_src_t
  clk_div : clock_name_t → Nat
  clk_group : Nat → clock_name_t → Bool
  cpu_group : Nat → Nat → Bool
  adc_src : clock_name_t → clk_adc_src_t
  dac_src : clock_name_t → clk_dac_src_t
  preset : Nat
  xtal_rampup : Nat
  hpm_core_clock : Nat
  sdxc_clk_en : Nat → Bool
  sdxc_freq_sel : Nat → Bool
  sdxc_div : Nat → Nat
  pmp : List pmp_entry_t
  gptmr_sr : Nat → Nat
  gptmr_reload : Nat → Nat → Nat
  gptmr_irq_en : Nat → Nat
  gptmr_started : Nat → Nat → Bool
  irq_priority : Nat → Option Nat

/-- The driver calls of board.c that write hardware, and the invocation of the registered
timer callback (`timer_cb fn`, the callback body itself is outside board.c). -/
inductive hal_call where
  | clock_add_to_group (c : clock_name_t) (g : Nat)
  | clock_set_source_divider (c : clock_name_t) (src : clk_src_t) (div : Nat)
  | clock_set_adc_source (c : clock_name_t) (src : clk_adc_src_t)
  | clock_set_dac_source (c : clock_name_t) (src : clk_dac_src_t)
  | clock_connect_group_to_cpu (g : Nat) (cpu : Nat)
  | clock_update_core_clock
  | pllctlv2_xtal_set_rampup_time (t : Nat)
  | sysctl_clock_set_preset (p : Nat)
  | sdxc_enable_sd_clock (ptr : Nat) (en : Bool)
  | sdxc_enable_freq_selection (ptr : Nat)
  | sdxc_set_clock_divider (ptr : Nat) (div : Nat)
  | pmp_config (entries : List pmp_entry_t)
  | gptmr_clear_status (ptr : Nat) (mask : Nat)
  | gptmr_channel_config (ptr : Nat) (ch : Nat) (reload : Nat) (enable : Bool)
  | gptmr_enable_irq (ptr : Nat) (mask : Nat)
  | intc_m_enable_irq_with_priority (irq : Nat) (priority : Nat)
  | gptmr_start_counter (ptr : Nat) (ch : Nat)
  | timer_cb (fn : Nat)
  deriving DecidableEq, Repr

/-- The state of the system: the registers, the static variable `timer_cb` of board.c (a
function pointer) and the driver calls made so far, oldest first. -/
@[ext]
structure Sys where
  hw : Hw
  timer_cb : Nat
  trace : List hal_call

/-- Modelled from the spec: frequency of a clock as the registers give it, the frequency of
its source divided by its divider, as a 32-bit value. -/
def Hw.frequency (P : Platform) (h : Hw) (c : clock_name_t) : Nat :=
  (P.clk_src_freq (h.clk_src c) / h.clk_div c) % 2 ^ 32

/-- Modelled from the spec: the effect of each driver call on the registers. -/
def hal_call.apply (P : Platform) : hal_call → Hw → Hw
  | .clock_add_to_group c g, h =>
      { h with clk_group := Function.update h.clk_group g (Function.update (h.clk_group g) c true) }
  | .clock_set_source_divider c src div, h =>
      { h with clk_src := Function.update h.clk_src c src,
               clk_div := Function.update h.clk_div c div }
  | .clock_set_adc_source c src, h => { h with adc_src := Function.update h.adc_src c src }
  | .clock_set_dac_source c src, h => { h with dac_src := Function.update h.dac_src c src }
  | .clock_connect_group_to_cpu g cpu, h =>
      { h with cpu_group := Function.update h.cpu_group cpu (Function.update (h.cpu_group cpu) g true) }
  | .clock_update_core_clock, h =>
      { h with hpm_core_clock := h.frequency P clock_name_t.clock_cpu0 }
  | .pllctlv2_xtal_set_rampup_time t, h => { h with xtal_rampup := t }
  | .sysctl_clock_set_preset p, h => { h with preset := p }
  | .sdxc_enable_sd_clock ptr en, h => { h with sdxc_clk_en := Function.update h.sdxc_clk_en ptr en }
  | .sdxc_enable_freq_selection ptr, h =>
      { h with sdxc_freq_sel := Function.update h.sdxc_freq_sel ptr true }
  | .sdxc_set_clock_divider ptr div, h => { h with sdxc_div := Function.update h.sdxc_div ptr div }
  | .pmp_config entries, h => { h with pmp := entries ++ h.pmp.drop entries.length }
  | .gptmr_clear_status ptr mask, h =>
      { h with gptmr_sr := Function.update h.gptmr_sr ptr (h.gptmr_sr ptr ^^^ (h.gptmr_sr ptr &&& mask)) }
  | .gptmr_channel_config ptr ch reload enable, h =>
      { h with gptmr_reload := Function.update h.gptmr_reload ptr (Function.update (h.gptmr_reload ptr) ch reload),
               gptmr_started := Function.update h.gptmr_started ptr (Function.update (h.gptmr_started ptr) ch enable) }
  | .gptmr_enable_irq ptr mask, h =>
      { h with gptmr_irq_en := Function.update h.gptmr_irq_en ptr (h.gptmr_irq_en ptr ||| mask) }
  | .intc_m_enable_irq_with_priority irq priority, h =>
      { h with irq_priority := Function.update h.irq_priority irq (some priority) }
  | .gptmr_start_counter ptr ch, h =>
      { h with gptmr_started := Function.update h.gptmr_started ptr (Function.update (h.gptmr_started ptr) ch true) }
  | .timer_cb _, h => h

/-- One driver call: the registers are updated and the call is appended to the trace. -/
def hal (P : Platform) (c : hal_call) (s : Sys) : Sys :=
  { s with hw := c.apply P s.hw, trace := s.trace ++ [c] }

/-! ## Driver entry points used by board.c -/

/-- Modelled from the spec: the driver call `clock_add_to_group`, a write recorded in the trace. -/
def clock_add_to_group (P : Platform) (c : clock_name_t) (g : Nat) (s : Sys) : Sys :=
  hal P (.clock_add_to_group c g) s

/-- Modelled from the spec: the driver call `clock_set_source_divider`, a write recorded in the trace. -/
def clock_set_source_divider (P : Platform) (c : clock_name_t) (src : clk_src_t) (div : Nat)
    (s : Sys) : Sys :=
  hal P (.clock_set_source_divider c src div) s

/-- Modelled from the spec: the driver call `clock_set_adc_source`, a write recorded in the trace. -/
def clock_set_adc_source (P : Platform) (c : clock_name_t) (src : clk_adc_src_t) (s : Sys) : Sys :=
  hal P (.clock_set_adc_source c src) s

/-- Modelled from the spec: the driver call `clock_set_dac_source`, a write recorded in the trace. -/
def clock_set_dac_source (P : Platform) (c : clock_name_t) (src : clk_dac_src_t) (s : Sys) : Sys :=
  hal P (.clock_set_dac_source c src) s

/-- Modelled from the spec: the driver call `clock_connect_group_to_cpu`, a write recorded in the trace. -/
def clock_connect_group_to_cpu (P : Platform) (g : Nat) (cpu : Nat) (s : Sys) : Sys :=
  hal P (.clock_connect_group_to_cpu g cpu) s

/-- Modelled from the spec: the driver call `clock_update_core_clock`, a write recorded in the trace. -/
def clock_update_core_clock (P : Platform) (s : Sys) : Sys :=
  hal P .clock_update_core_clock s

/-- Modelled from the spec: the driver call `pllctlv2_xtal_set_rampup_time`, a write recorded in the trace. -/
def pllctlv2_xtal_set_rampup_time (P : Platform) (t : Nat) (s : Sys) : Sys :=
  hal P (.pllctlv2_xtal_set_rampup_time t) s

/-- Modelled from the spec: the driver call `sysctl_clock_set_preset`, a write recorded in the trace. -/
def sysctl_clock_set_preset (P : Platform) (p : Nat) (s : Sys) : Sys :=
  hal P (.sysctl_clock_set_preset p) s

/-- Modelled from the spec: the driver call `sdxc_enable_sd_clock`, a write recorded in the trace. -/
def sdxc_enable_sd_clock (P : Platform) (ptr : Nat) (en : Bool) (s : Sys) : Sys :=
  hal P (.sdxc_enable_sd_clock ptr en) s

/-- Modelled from the spec: the driver call `sdxc_enable_freq_selection`, a write recorded in the trace. -/
def sdxc_enable_freq_selection (P : Platform) (ptr : Nat) (s : Sys) : Sys :=
  hal P (.sdxc_enable_freq_selection ptr) s

/-- Modelled from the spec: the driver call `sdxc_set_clock_divider`, a write recorded in the trace. -/
def sdxc_set_clock_divider (P : Platform) (ptr : Nat) (div : Nat) (s : Sys) : Sys :=
  hal P (.sdxc_set_clock_divider ptr div) s

/-- Modelled from the spec: the driver call `pmp_config`, a write recorded in the trace. -/
def pmp_config (P : Platform) (entries : List pmp_entry_t) (s : Sys) : Sys :=
  hal P (.pmp_config entries) s

/-- Modelled from the spec: the driver call `gptmr_clear_status`, a write recorded in the trace. -/
def gptmr_clear_status (P : Platform) (ptr : Nat) (mask : Nat) (s : Sys) : Sys :=
  hal P (.gptmr_clear_status ptr mask) s

/-- Modelled from the spec: the driver call `gptmr_channel_config`, a write recorded in the trace. -/
def gptmr_channel_config (P : Platform) (ptr : Nat) (ch : Nat) (reload : Nat) (enable : Bool)
    (s : Sys) : Sys :=
  hal P (.gptmr_channel_config ptr ch reload enable) s

/-- Modelled from the spec: the driver call `gptmr_enable_irq`, a write recorded in the trace. -/
def gptmr_enable_irq (P : Platform) (ptr : Nat) (mask : Nat) (s : Sys) : Sys :=
  hal P (.gptmr_enable_irq ptr mask) s

/-- Modelled from the spec: the driver call `intc_m_enable_irq_with_priority`, a write recorded in the trace. -/
def intc_m_enable_irq_with_priority (P : Platform) (irq : Nat) (priority : Nat) (s : Sys) : Sys :=
  hal P (.intc_m_enable_irq_with_priority irq priority) s

/-- Modelled from the spec: the driver call `gptmr_start_counter`, a write recorded in the trace. -/
def gptmr_start_counter (P : Platform) (ptr : Nat) (ch : Nat) (s : Sys) : Sys :=
  hal P (.gptmr_start_counter ptr ch) s

/-- The call `timer_cb()` through the static function pointer; the body of the callback is
not part of board.c, the invocation is recorded in the trace. -/
def call_timer_cb (P : Platform) (s : Sys) : Sys :=
  hal P (.timer_cb s.timer_cb) s

/-- Modelled from the spec: `clock_get_frequency` reads the frequency the registers give and
writes nothing. -/
def clock_get_frequency (P : Platform) (c : clock_name_t) (s : Sys) : Nat :=
  s.hw.frequency P c

/-- Modelled from the spec: `sdxc_get_clock_divider` gives back the divider last programmed. -/
def sdxc_get_clock_divider (ptr : Nat) (s : Sys) : Nat :=
  s.hw.sdxc_div ptr

/-- Modelled from the spec: `gptmr_check_status` tells whether all bits of `mask` are set in
the status register of the timer. -/
def gptmr_check_status (ptr : Nat) (mask : Nat) (s : Sys) : Bool :=
  (s.hw.gptmr_sr ptr &&& mask) == mask

/-- Modelled from the spec: the mask of the reload status flag of a channel, one bit. -/
def GPTMR_CH_RLD_STAT_MASK (P : Platform) (ch : Nat) : Nat := 2 ^ P.rld_stat_bit ch

/-- Modelled from the spec: the mask of the reload interrupt enable of a channel, one bit. -/
def GPTMR_CH_RLD_IRQ_MASK (P : Platform) (ch : Nat) : Nat := 2 ^ P.rld_irq_bit ch

/-! ## board.c -/

/-- Subtraction of 32-bit words. -/
def sub32 (a b : Nat) : Nat := (a + 2 ^ 32 - b) % 2 ^ 32

/-- Function `board_timer_isr` (board.c:201): dispatch of the timer interrupt to the
registered callback. -/
def board_timer_isr (P : Platform) (s : Sys) : Sys :=
  if gptmr_check_status P.BOARD_CALLBACK_TIMER (GPTMR_CH_RLD_STAT_MASK P P.BOARD_CALLBACK_TIMER_CH) s then
    let s := gptmr_clear_status P P.BOARD_CALLBACK_TIMER
      (GPTMR_CH_RLD_STAT_MASK P P.BOARD_CALLBACK_TIMER_CH) s
    call_timer_cb P s
  else
    s

/-- Function `board_timer_create` (board.c:210): registers `cb` and starts the callback timer
with period `ms`.  The channel configuration is represented by the reload value assigned
here; its other fields are the defaults of the driver. -/
def board_timer_create (P : Platform) (ms : Nat) (cb : Nat) (s : Sys) : Sys :=
  let s : Sys := { s with timer_cb := cb }
  let s := clock_add_to_group P P.BOARD_CALLBACK_TIMER_CLK_NAME 0 s
  let gptmr_freq := clock_get_frequency P P.BOARD_CALLBACK_TIMER_CLK_NAME s
  let reload := (gptmr_freq / 1000 * ms) % 2 ^ 32
  let s := gptmr_channel_config P P.BOARD_CALLBACK_TIMER P.BOARD_CALLBACK_TIMER_CH reload false s
  let s := gptmr_enable_irq P P.BOARD_CALLBACK_TIMER (GPTMR_CH_RLD_IRQ_MASK P P.BOARD_CALLBACK_TIMER_CH) s
  let s := intc_m_enable_irq_with_priority P P.BOARD_CALLBACK_TIMER_IRQ 1 s
  gptmr_start_counter P P.BOARD_CALLBACK_TIMER P.BOARD_CALLBACK_TIMER_CH s

/-- Function `board_init_spi_clock` (board.c:238). -/
def board_init_spi_clock (P : Platform) (ptr : Nat) (s : Sys) : Nat × Sys :=
  if ptr = P.HPM_SPI3 then
    let s := clock_add_to_group P .clock_spi3 0 s
    let s := clock_set_source_divider P .clock_spi3 .clk_src_osc24m 1 s
    (clock_get_frequency P .clock_spi3 s, s)
  else
    (0, s)

/-- How `board_init_pmp` ends: it returns, or one of its assertions (1 or 2) fails; `s` is the
state at that point. -/
inductive Outcome where
  | returned (s : Sys)
  | assert_failed (n : Nat) (s : Sys)

/-- The call took the fail-stop path. -/
def Outcome.is_assert_failed : Outcome → Bool
  | .returned _ => false
  | .assert_failed _ _ => true

/-- The state in which the call ended. -/
def Outcome.state : Outcome → Sys
  | .returned s => s
  | .assert_failed _ s => s

/-- Function `board_init_pmp` (board.c:306); the addresses of the two linker symbols are its
inputs, a failing `assert` ends the call. -/
def board_init_pmp (P : Platform) (noncacheable_start noncacheable_end : Nat) (s : Sys) : Outcome :=
  let start_addr := noncacheable_start % 2 ^ 32
  let end_addr := noncacheable_end % 2 ^ 32
  let length := sub32 end_addr start_addr
  if length = 0 then
    .returned s
  else if ¬ (length &&& sub32 length 1 = 0) then
    .assert_failed 1 s
  else if ¬ (start_addr &&& sub32 length 1 = 0) then
    .assert_failed 2 s
  else
    let e0 : pmp_entry_t :=
      { pmp_addr := P.PMP_NAPOT_ADDR 0x0000000 0x80000000,
        pmp_cfg := P.PMP_CFG P.READ_EN P.WRITE_EN P.EXECUTE_EN P.ADDR_MATCH_NAPOT P.REG_UNLOCK,
        pma_addr := 0, pma_cfg := 0 }
    let e1 : pmp_entry_t :=
      { pmp_addr := P.PMP_NAPOT_ADDR 0x80000000 0x80000000,
        pmp_cfg := P.PMP_CFG P.READ_EN P.WRITE_EN P.EXECUTE_EN P.ADDR_MATCH_NAPOT P.REG_UNLOCK,
        pma_addr := 0, pma_cfg := 0 }
    let e2 : pmp_entry_t :=
      { pmp_addr := P.PMP_NAPOT_ADDR start_addr length,
        pmp_cfg := P.PMP_CFG P.READ_EN P.WRITE_EN P.EXECUTE_EN P.ADDR_MATCH_NAPOT P.REG_UNLOCK,
        pma_addr := P.PMA_NAPOT_ADDR start_addr length,
        pma_cfg := P.PMA_CFG P.ADDR_MATCH_NAPOT P.MEM_TYPE_MEM_NON_CACHE_BUF P.AMO_EN }
    .returned (pmp_config P [e0, e1, e2] s)

/-- The clocks `board_init_clock` adds to group 0, in the order of the calls. -/
def group0_clocks : List clock_name_t :=
  [.clock_cpu0, .clock_ahbp, .clock_axic, .clock_axis,
   .clock_mchtmr0, .clock_dram, .clock_xpi0, .clock_xpi1,
   .clock_gptmr0, .clock_gptmr1, .clock_gptmr2, .clock_gptmr3,
   .clock_uart0, .clock_uart1, .clock_uart2, .clock_uart3,
   .clock_i2c0, .clock_i2c1, .clock_i2c2, .clock_i2c3,
   .clock_spi0, .clock_spi1, .clock_spi2, .clock_spi3,
   .clock_can0, .clock_can1, .clock_sdxc0, .clock_ptpc, .clock_ref0, .clock_ref1,
   .clock_watchdog0, .clock_eth0, .clock_sdp, .clock_xdma, .clock_ram0, .clock_usb0,
   .clock_kman, .clock_gpio, .clock_mbx0, .clock_hdma, .clock_rng, .clock_mot0, .clock_mot1,
   .clock_acmp, .clock_dao, .clock_msyn, .clock_lmm0, .clock_pdm,
   .clock_adc0, .clock_adc1, .clock_adc2,
   .clock_dac0,
   .clock_i2s0, .clock_i2s1,
   .clock_ffa0, .clock_tsns]

/-- Function `board_init_clock` (board.c:338); the consecutive `clock_add_to_group` calls are
a fold over `group0_clocks`. -/
def board_init_clock (P : Platform) (s : Sys) : Sys :=
  let cpu0_freq := clock_get_frequency P .clock_cpu0 s
  let s :=
    if cpu0_freq = P.PLLCTL_SOC_PLL_REFCLK_FREQ then
      let s := pllctlv2_xtal_set_rampup_time P (32 * 1000 * 9) s
      sysctl_clock_set_preset P 2 s
    else
      s
  let s := group0_clocks.foldl (fun s c => clock_add_to_group P c 0 s) s
  let s := clock_connect_group_to_cpu P 0 0 s
  let s := clock_set_source_divider P .clock_cpu0 .clk_src_pll1_clk0 1 s
  clock_update_core_clock P s

/-- Function `board_init_adc12_clock` (board.c:419); the switch is on the address of the
handle. -/
def board_init_adc12_clock (P : Platform) (ptr : Nat) (s : Sys) : Nat × Sys :=
  let freq := 0
  if ptr = P.HPM_ADC0_BASE then
    let s := clock_set_adc_source P .clock_adc0 .clk_adc_src_ana s
    let s := clock_set_source_divider P .clock_ana0 .clk_src_pll1_clk1 2 s
    let freq := clock_get_frequency P .clock_adc0 s
    (freq, s)
  else if ptr = P.HPM_ADC1_BASE then
    let s := clock_set_adc_source P .clock_adc1 .clk_adc_src_ana s
    let s := clock_set_source_divider P .clock_ana0 .clk_src_pll1_clk1 2 s
    let freq := clock_get_frequency P .clock_adc1 s
    (freq, s)
  else if ptr = P.HPM_ADC2_BASE then
    let s := clock_set_adc_source P .clock_adc2 .clk_adc_src_ana s
    let s := clock_set_source_divider P .clock_ana0 .clk_src_pll1_clk1 2 s
    let freq := clock_get_frequency P .clock_adc2 s
    (freq, s)
  else
    (freq, s)

/-- Function `board_init_dac_clock` (board.c:469). -/
def board_init_dac_clock (P : Platform) (ptr : Nat) (clk_src_ahb : Bool) (s : Sys) : Nat × Sys :=
  let freq := 0
  if ptr = P.HPM_DAC then
    let s :=
      if clk_src_ahb = true then
        clock_set_dac_source P .clock_dac0 .clk_dac_src_ahb s
      else
        let s := clock_set_dac_source P .clock_dac0 .clk_dac_src_ana s
        clock_set_source_divider P .clock_ana3 .clk_src_pll0_clk1 2 s
    let freq := clock_get_frequency P .clock_dac0 s
    (freq, s)
  else
    (freq, s)

/-- Function `board_init_can_clock` (board.c:494). -/
def board_init_can_clock (P : Platform) (ptr : Nat) (s : Sys) : Nat × Sys :=
  let freq := 0
  if ptr = P.HPM_CAN0 then
    let s := clock_set_source_divider P .clock_can0 .clk_src_pll0_clk0 5 s
    let freq := clock_get_frequency P .clock_can0 s
    (freq, s)
  else if ptr = P.HPM_CAN1 then
    let s := clock_set_source_divider P .clock_can1 .clk_src_pll0_clk0 5 s
    let freq := clock_get_frequency P .clock_can1 s
    (freq, s)
  else
    (freq, s)

/-- Function `board_sd_configure_clock` (board.c:566); the `break` out of the do-while block
is the first branch. -/
def board_sd_configure_clock (P : Platform) (ptr : Nat) (freq : Nat) (s : Sys) : Nat × Sys :=
  let actual_freq := 0
  if ptr ≠ P.HPM_SDXC0 then
    (actual_freq, s)
  else
    let sdxc_clk := clock_name_t.clock_sdxc0
    let s := sdxc_enable_sd_clock P ptr false s
    let s := clock_set_source_divider P sdxc_clk .clk_src_pll0_clk0 2 s
    let s := sdxc_enable_freq_selection P ptr s
    let s :=
      if freq ≤ 400000 then
        sdxc_set_clock_divider P ptr 600 s
      else if freq ≤ 25000000 then
        sdxc_set_clock_divider P ptr 8 s
      else if freq ≤ 50000000 then
        sdxc_set_clock_divider P ptr 4 s
      else if freq ≤ 100000000 then
        sdxc_set_clock_divider P ptr 2 s
      else if freq ≤ 208000000 then
        sdxc_set_clock_divider P ptr 1 s
      else
        sdxc_set_clock_divider P ptr 8 s
    let s := sdxc_enable_sd_clock P ptr true s
    let actual_freq := clock_get_frequency P sdxc_clk s / sdxc_get_clock_divider ptr s
    (actual_freq, s)

/-- Function `board_init_enet_ptp_clock` (board.c:620). -/
def board_init_enet_ptp_clock (P : Platform) (ptr : Nat) (s : Sys) : hpm_stat_t × Sys :=
  if ptr = P.HPM_ENET0 then
    let s := clock_set_source_divider P .clock_ptp0 .clk_src_pll0_clk0 4 s
    (.status_success, s)
  else
    (.status_invalid_argument, s)

/-- Function `board_init_enet_rmii_reference_clock` (board.c:633). -/
def board_init_enet_rmii_reference_clock (P : Platform) (ptr : Nat) (internal : Bool) (s : Sys) :
    hpm_stat_t × Sys :=
  if internal = false then
    (.status_success, s)
  else if ptr = P.HPM_ENET0 then
    let s := clock_set_source_divider P .clock_eth0 .clk_src_pll0_clk2 5 s
    (.status_success, s)
  else
    (.status_invalid_argument, s)

/-- Function `board_init_uart_clock` (board.c:666). -/
def board_init_uart_clock (P : Platform) (ptr : Nat) (s : Sys) : Nat × Sys :=
  let freq := 0
  if ptr = P.HPM_UART0 then
    let s := clock_set_source_divider P .clock_uart0 .clk_src_osc24m 1 s
    let freq := clock_get_frequency P .clock_uart0 s
    (freq, s)
  else if ptr = P.HPM_UART1 then
    let s := clock_set_source_divider P .clock_uart1 .clk_src_osc24m 1 s
    let freq := clock_get_frequency P .clock_uart1 s
    (freq, s)
  else if ptr = P.HPM_UART2 then
    let s := clock_set_source_divider P .clock_uart2 .clk_src_osc24m 1 s
    let freq := clock_get_frequency P .clock_uart2 s
    (freq, s)
  else
    (freq, s)

/-! ## A concrete platform and state, for evaluating the definitions -/

/-- An assignment of the platform parameters: distinct non-null base addresses, the reload
flag of channel `ch` at bit `4 * ch`, clock sources at the frequencies the comments of
board.c name (pll0_clk0 400 MHz, pll0_clk2 250 MHz, pll1_clk0 480 MHz), and the configuration
macros as bit fields. -/
def evk : Platform where
  HPM_SPI3 := 0xF003C000
  HPM_ADC0_BASE := 0xF0010000
  HPM_ADC1_BASE := 0xF0014000
  HPM_ADC2_BASE := 0xF0018000
  HPM_DAC := 0xF0024000
  HPM_CAN0 := 0xF0080000
  HPM_CAN1 := 0xF0084000
  HPM_UART0 := 0xF0040000
  HPM_UART1 := 0xF0044000
  HPM_UART2 := 0xF0048000
  HPM_SDXC0 := 0xF2030000
  HPM_ENET0 := 0xF2000000
  BOARD_CALLBACK_TIMER := 0xF0004000
  BOARD_CALLBACK_TIMER_CH := 1
  BOARD_CALLBACK_TIMER_IRQ := 35
  BOARD_CALLBACK_TIMER_CLK_NAME := .clock_gptmr1
  rld_stat_bit := fun ch => 4 * ch
  rld_irq_bit := fun ch => 4 * ch
  PLLCTL_SOC_PLL_REFCLK_FREQ := 24000000
  clk_src_freq := fun
    | .clk_src_osc24m => 24000000
    | .clk_src_pll0_clk0 => 400000000
    | .clk_src_pll0_clk1 => 333333333
    | .clk_src_pll0_clk2 => 250000000
    | .clk_src_pll1_clk0 => 480000000
    | .clk_src_pll1_clk1 => 320000000
  PMP_NAPOT_ADDR := fun x length => ((x / 4) ||| ((length - 1) / 8)) % 2 ^ 32
  PMA_NAPOT_ADDR := fun x length => ((x / 4) ||| ((length - 1) / 8)) % 2 ^ 32
  PMP_CFG := fun r w x m l => r ||| (w <<< 1) ||| (x <<< 2) ||| (m <<< 3) ||| (l <<< 7)
  PMA_CFG := fun m t n => m ||| (t <<< 2) ||| (n <<< 6)
  READ_EN := 1
  WRITE_EN := 1
  EXECUTE_EN := 1
  ADDR_MATCH_NAPOT := 3
  REG_UNLOCK := 0
  MEM_TYPE_MEM_NON_CACHE_BUF := 3
  AMO_EN := 0

/-- Registers after reset, every clock on the 24 MHz oscillator with divider 1. -/
def hw_reset : Hw where
  clk_src := fun _ => .clk_src_osc24m
  clk_div := fun _ => 1
  clk_group := fun _ _ => false
  cpu_group := fun _ _ => false
  adc_src := fun _ => .clk_adc_src_ahb
  dac_src := fun _ => .clk_dac_src_ahb
  preset := 0
  xtal_rampup := 0
  hpm_core_clock := 24000000
  sdxc_clk_en := fun _ => false
  sdxc_freq_sel := fun _ => false
  sdxc_div := fun _ => 1
  pmp := []
  gptmr_sr := fun _ => 0
  gptmr_reload := fun _ _ => 0
  gptmr_irq_en := fun _ => 0
  gptmr_started := fun _ _ => false
  irq_priority := fun _ => none

/-- The system after reset: no callback registered, no driver call made. -/
def sys_reset : Sys := { hw := hw_reset, timer_cb := 0, trace := [] }

/-- The hardware sets the status register of the timer at `ptr` to `sr`. -/
def timer_status_becomes (ptr : Nat) (sr : Nat) (s : Sys) : Sys :=
  { s with hw := { s.hw with gptmr_sr := Function.update s.hw.gptmr_sr ptr sr } }

/-! ## Theorems -/

section sdxc

/-- C1: for the handle HPM_SDXC0 and every requested frequency, the divider that
board_sd_configure_clock leaves in the SDXC divider register is 600 up to 400 kHz, 8 up to
25 MHz, 4 up to 50 MHz, 2 up to 100 MHz, 1 up to 208 MHz and 8 above; the driver calls it makes
are, in order, clock off, source pll0_clk0 with divider 2, frequency selection, that divider,
clock on; requests of exactly 400000, 25000000, 50000000, 100000000, 208000000 and 300000000
Hz select 600, 8, 4, 2, 1 and 8. -/
theorem board_sd_configure_clock_divider (P : Platform) (s : Sys) :
    (∀ freq : Nat,
      (board_sd_configure_clock P P.HPM_SDXC0 freq s).2.hw.sdxc_div P.HPM_SDXC0 =
        (if freq ≤ 400000 then 600 else if freq ≤ 25000000 then 8
         else if freq ≤ 50000000 then 4 else if freq ≤ 100000000 then 2
         else if freq ≤ 208000000 then 1 else 8) ∧
      (board_sd_configure_clock P P.HPM_SDXC0 freq s).2.trace =
        s.trace ++
          [.sdxc_enable_sd_clock P.HPM_SDXC0 false,
           .clock_set_source_divider .clock_sdxc0 .clk_src_pll0_clk0 2,
           .sdxc_enable_freq_selection P.HPM_SDXC0,
           .sdxc_set_clock_divider P.HPM_SDXC0
             ((board_sd_configure_clock P P.HPM_SDXC0 freq s).2.hw.sdxc_div P.HPM_SDXC0),
           .sdxc_enable_sd_clock P.HPM_SDXC0 true]) ∧
    (board_sd_configure_clock P P.HPM_SDXC0 400000 s).2.hw.sdxc_div P.HPM_SDXC0 = 600 ∧
    (board_sd_configure_clock P P.HPM_SDXC0 25000000 s).2.hw.sdxc_div P.HPM_SDXC0 = 8 ∧
    (board_sd_configure_clock P P.HPM_SDXC0 50000000 s).2.hw.sdxc_div P.HPM_SDXC0 = 4 ∧
    (board_sd_configure_clock P P.HPM_SDXC0 100000000 s).2.hw.sdxc_div P.HPM_SDXC0 = 2 ∧
    (board_sd_configure_clock P P.HPM_SDXC0 208000000 s).2.hw.sdxc_div P.HPM_SDXC0 = 1 ∧
    (board_sd_configure_clock P P.HPM_SDXC0 300000000 s).2.hw.sdxc_div P.HPM_SDXC0 = 8 := by
  refine ⟨fun freq => ?_, ?_, ?_, ?_, ?_, ?_, ?_⟩
  · simp only [board_sd_configure_clock, sdxc_enable_sd_clock, clock_set_source_divider,
      sdxc_enable_freq_selection, sdxc_set_clock_divider, hal, hal_call.apply]
    split_ifs <;> simp_all
  all_goals
    simp [board_sd_configure_clock, sdxc_enable_sd_clock, clock_set_source_divider,
      sdxc_enable_freq_selection, sdxc_set_clock_divider, hal, hal_call.apply]

/-- C2, as the spec states it, fails: on the reset state a request of 300 MHz, above the top
tier, programs divider 8, while an identification-speed request of 400 kHz programs 600. -/
theorem board_sd_configure_clock_above_top_tier_not_identification :
    (board_sd_configure_clock evk evk.HPM_SDXC0 300000000 sys_reset).2.hw.sdxc_div evk.HPM_SDXC0 = 8 ∧
    (board_sd_configure_clock evk evk.HPM_SDXC0 400000 sys_reset).2.hw.sdxc_div evk.HPM_SDXC0 = 600 ∧
    (board_sd_configure_clock evk evk.HPM_SDXC0 300000000 sys_reset).2.hw.sdxc_div evk.HPM_SDXC0 ≠
      (board_sd_configure_clock evk evk.HPM_SDXC0 400000 sys_reset).2.hw.sdxc_div evk.HPM_SDXC0 := by
  simp [board_sd_configure_clock, sdxc_enable_sd_clock, clock_set_source_divider,
    sdxc_enable_freq_selection, sdxc_set_clock_divider, hal, hal_call.apply]

/-- C2, amended: for the handle HPM_SDXC0 a request above the top tier (more than 208 MHz)
falls back to the default-speed divider: it programs 8, the divider programmed for every
default-speed request (above 400 kHz, at most 25 MHz), and not the divider 600 programmed
for an identification-speed request (at most 400 kHz). -/
theorem board_sd_configure_clock_above_top_tier (P : Platform) (s s1 s2 : Sys)
    (freq fdef fid : Nat) (hfreq : 208000000 < freq)
    (hdef : 400000 < fdef ∧ fdef ≤ 25000000) (hid : fid ≤ 400000) :
    (board_sd_configure_clock P P.HPM_SDXC0 freq s).2.hw.sdxc_div P.HPM_SDXC0 = 8 ∧
    (board_sd_configure_clock P P.HPM_SDXC0 freq s).2.hw.sdxc_div P.HPM_SDXC0 =
      (board_sd_configure_clock P P.HPM_SDXC0 fdef s1).2.hw.sdxc_div P.HPM_SDXC0 ∧
    (board_sd_configure_clock P P.HPM_SDXC0 fid s2).2.hw.sdxc_div P.HPM_SDXC0 = 600 := by
  have h1 : ¬ freq ≤ 400000 := by omega
  have h2 : ¬ freq ≤ 25000000 := by omega
  have h3 : ¬ freq ≤ 50000000 := by omega
  have h4 : ¬ freq ≤ 100000000 := by omega
  have h5 : ¬ freq ≤ 208000000 := by omega
  have h6 : ¬ fdef ≤ 400000 := by omega
  simp [board_sd_configure_clock, sdxc_enable_sd_clock, clock_set_source_divider,
    sdxc_enable_freq_selection, sdxc_set_clock_divider, hal, hal_call.apply,
    h1, h2, h3, h4, h5, h6, hdef.2, hid]

/-- Witness of the amended C2 on the reset state: 300 MHz against 25 MHz and 400 kHz. -/
theorem board_sd_configure_clock_above_top_tier_witness :
    (board_sd_configure_clock evk evk.HPM_SDXC0 300000000 sys_reset).2.hw.sdxc_div evk.HPM_SDXC0 = 8 ∧
    (board_sd_configure_clock evk evk.HPM_SDXC0 300000000 sys_reset).2.hw.sdxc_div evk.HPM_SDXC0 =
      (board_sd_configure_clock evk evk.HPM_SDXC0 25000000 sys_reset).2.hw.sdxc_div evk.HPM_SDXC0 ∧
    (board_sd_configure_clock evk evk.HPM_SDXC0 400000 sys_reset).2.hw.sdxc_div evk.HPM_SDXC0 = 600 :=
  board_sd_configure_clock_above_top_tier evk sys_reset sys_reset sys_reset
    300000000 25000000 400000 (by decide) (by decide) (by decide)

end sdxc

section handles

/-- C3: each frequency-returning clock routine, called with a handle it does not recognise,
returns 0 and makes no driver call: the state after the call, trace of driver calls and
registers together, is the state before it, for every value of the remaining arguments. -/
theorem unrecognised_handle_returns_zero (P : Platform) (s : Sys) :
    (∀ ptr, ptr ≠ P.HPM_SPI3 → board_init_spi_clock P ptr s = (0, s)) ∧
    (∀ ptr, ptr ≠ P.HPM_ADC0_BASE → ptr ≠ P.HPM_ADC1_BASE → ptr ≠ P.HPM_ADC2_BASE →
      board_init_adc12_clock P ptr s = (0, s)) ∧
    (∀ ptr clk_src_ahb, ptr ≠ P.HPM_DAC → board_init_dac_clock P ptr clk_src_ahb s = (0, s)) ∧
    (∀ ptr, ptr ≠ P.HPM_CAN0 → ptr ≠ P.HPM_CAN1 → board_init_can_clock P ptr s = (0, s)) ∧
    (∀ ptr, ptr ≠ P.HPM_UART0 → ptr ≠ P.HPM_UART1 → ptr ≠ P.HPM_UART2 →
      board_init_uart_clock P ptr s = (0, s)) ∧
    (∀ ptr freq, ptr ≠ P.HPM_SDXC0 → board_sd_configure_clock P ptr freq s = (0, s)) := by
  refine ⟨?_, ?_, ?_, ?_, ?_, ?_⟩
  · intro ptr h
    simp [board_init_spi_clock, h]
  · intro ptr h0 h1 h2
    simp [board_init_adc12_clock, h0, h1, h2]
  · intro ptr b h
    simp [board_init_dac_clock, h]
  · intro ptr h0 h1
    simp [board_init_can_clock, h0, h1]
  · intro ptr h0 h1 h2
    simp [board_init_uart_clock, h0, h1, h2]
  · intro ptr freq h
    simp [board_sd_configure_clock, h]

/-- Witness of C3: the null handle on the reset state, for each of the six routines. -/
theorem unrecognised_handle_returns_zero_witness :
    board_init_spi_clock evk 0 sys_reset = (0, sys_reset) ∧
    board_init_adc12_clock evk 0 sys_reset = (0, sys_reset) ∧
    board_init_dac_clock evk 0 true sys_reset = (0, sys_reset) ∧
    board_init_can_clock evk 0 sys_reset = (0, sys_reset) ∧
    board_init_uart_clock evk 0 sys_reset = (0, sys_reset) ∧
    board_sd_configure_clock evk 0 50000000 sys_reset = (0, sys_reset) :=
  ⟨(unrecognised_handle_returns_zero evk sys_reset).1 0 (by decide),
   (unrecognised_handle_returns_zero evk sys_reset).2.1 0 (by decide) (by decide) (by decide),
   (unrecognised_handle_returns_zero evk sys_reset).2.2.1 0 true (by decide),
   (unrecognised_handle_returns_zero evk sys_reset).2.2.2.1 0 (by decide) (by decide),
   (unrecognised_handle_returns_zero evk sys_reset).2.2.2.2.1 0 (by decide) (by decide) (by decide),
   (unrecognised_handle_returns_zero evk sys_reset).2.2.2.2.2 0 50000000 (by decide)⟩

/-- C4, as the spec states it, fails: with the flag `internal` false,
board_init_enet_rmii_reference_clock returns status_success for the null handle, which is not
HPM_ENET0. -/
theorem board_init_enet_rmii_reference_clock_external_null :
    evk.HPM_ENET0 ≠ 0 ∧
    (board_init_enet_rmii_reference_clock evk 0 false sys_reset).1 = .status_success ∧
    (board_init_enet_rmii_reference_clock evk 0 false sys_reset).1 ≠ .status_invalid_argument := by
  refine ⟨by decide, ?_, ?_⟩ <;> simp [board_init_enet_rmii_reference_clock]

/-- C4, amended: for a handle other than HPM_ENET0, board_init_enet_ptp_clock returns
status_invalid_argument, board_init_enet_rmii_reference_clock returns status_invalid_argument
when `internal` is true and status_success when it is false, and none of them makes a driver
call (the state is unchanged); for HPM_ENET0 both return status_success, for either value of
the flag. -/
theorem board_init_enet_clock_status (P : Platform) (s : Sys) :
    (∀ ptr, ptr ≠ P.HPM_ENET0 →
      board_init_enet_ptp_clock P ptr s = (.status_invalid_argument, s) ∧
      board_init_enet_rmii_reference_clock P ptr true s = (.status_invalid_argument, s) ∧
      board_init_enet_rmii_reference_clock P ptr false s = (.status_success, s)) ∧
    (board_init_enet_ptp_clock P P.HPM_ENET0 s).1 = .status_success ∧
    (∀ internal, (board_init_enet_rmii_reference_clock P P.HPM_ENET0 internal s).1 = .status_success) := by
  refine ⟨fun ptr h => ?_, ?_, fun internal => ?_⟩
  · simp [board_init_enet_ptp_clock, board_init_enet_rmii_reference_clock, h]
  · simp [board_init_enet_ptp_clock]
  · cases internal <;> simp [board_init_enet_rmii_reference_clock]

/-- Witness of the amended C4: the null handle on the reset state. -/
theorem board_init_enet_clock_status_witness :
    board_init_enet_ptp_clock evk 0 sys_reset = (.status_invalid_argument, sys_reset) ∧
    board_init_enet_rmii_reference_clock evk 0 true sys_reset = (.status_invalid_argument, sys_reset) ∧
    board_init_enet_rmii_reference_clock evk 0 false sys_reset = (.status_success, sys_reset) :=
  (board_init_enet_clock_status evk sys_reset).1 0 (by decide)

end handles

section pmp

/-- C5: when the two linker symbols are the same address, board_init_pmp returns without an
assertion failing and without a driver call: the state it returns in, registers (the PMP
entries among them) and trace, is the state it was called in. -/
theorem board_init_pmp_empty_region (P : Platform) (addr : Nat) (s : Sys) :
    board_init_pmp P addr addr s = .returned s := by
  have h : sub32 (addr % 4294967296) (addr % 4294967296) = 0 := by
    unfold sub32
    omega
  simp [board_init_pmp, h]

end pmp

section pmp_region

theorem testBit_of_two_pow_le_lt {x k : Nat} (h1 : 2 ^ k ≤ x) (h2 : x < 2 ^ (k + 1)) :
    x.testBit k = true := by
  rw [Nat.testBit_to_div_mod]
  have : x / 2 ^ k = 1 := by
    apply Nat.div_eq_of_lt_le
    · simpa using h1
    · rw [pow_succ] at h2; omega
  simp [this]

/-- The bit test of the first assertion: a positive word has no bit in common with its
predecessor exactly when it is a power of two. -/
theorem and_pred_eq_zero_iff {n : Nat} (hn : 0 < n) : n &&& (n - 1) = 0 ↔ ∃ k, n = 2 ^ k := by
  constructor
  · intro h
    refine ⟨Nat.log 2 n, ?_⟩
    by_contra hne
    have h1 : 2 ^ Nat.log 2 n ≤ n := Nat.pow_log_le_self 2 (by omega)
    have h2 : n < 2 ^ (Nat.log 2 n + 1) := Nat.lt_pow_succ_log_self (by norm_num) n
    have b1 := testBit_of_two_pow_le_lt h1 h2
    have b2 : (n - 1).testBit (Nat.log 2 n) = true :=
      testBit_of_two_pow_le_lt (by omega) (by omega)
    have := Nat.testBit_and n (n - 1) (Nat.log 2 n)
    rw [h, b1, b2] at this
    simp at this
  · rintro ⟨k, rfl⟩
    rw [Nat.and_pow_two_sub_one_eq_mod]
    exact Nat.mod_self _

/-- Both bit tests of board_init_pmp pass exactly when the length is a power of two that
divides the start address. -/
theorem pmp_bit_tests_iff (start_addr length : Nat) (hl : 0 < length) :
    (length &&& (length - 1) = 0 ∧ start_addr &&& (length - 1) = 0) ↔
      ((∃ k, length = 2 ^ k) ∧ length ∣ start_addr) := by
  rw [and_pred_eq_zero_iff hl]
  constructor
  · rintro ⟨⟨k, rfl⟩, h2⟩
    refine ⟨⟨k, rfl⟩, ?_⟩
    rwa [Nat.and_pow_two_sub_one_eq_mod, ← Nat.dvd_iff_mod_eq_zero] at h2
  · rintro ⟨⟨k, rfl⟩, h2⟩
    refine ⟨⟨k, rfl⟩, ?_⟩
    rwa [Nat.and_pow_two_sub_one_eq_mod, ← Nat.dvd_iff_mod_eq_zero]

theorem sub32_pos {a b : Nat} (ha : a < 2 ^ 32) (hb : b < 2 ^ 32) (h : a ≠ b) :
    0 < sub32 b a ∧ sub32 b a < 2 ^ 32 ∧ sub32 (sub32 b a) 1 = sub32 b a - 1 := by
  unfold sub32
  omega

/-- C6: for 32-bit addresses start and end that differ, with length the 32-bit difference
end - start, board_init_pmp takes the fail-stop path exactly when length is not a power of two
or start is not a multiple of length, and then it has committed nothing (it stops in the state
it was called in); and the two bit tests of the assertions both pass exactly when length is a
power of two and divides start. -/
theorem board_init_pmp_fail_stop_iff (P : Platform) (start_addr end_addr : Nat) (s : Sys)
    (hs : start_addr < 2 ^ 32) (he : end_addr < 2 ^ 32) (hne : start_addr ≠ end_addr) :
    ((sub32 end_addr start_addr : Nat) : Int) = ((end_addr : Int) - (start_addr : Int)) % 2 ^ 32 ∧
    ((board_init_pmp P start_addr end_addr s).is_assert_failed = true ↔
      (¬ (∃ k, sub32 end_addr start_addr = 2 ^ k) ∨ ¬ (sub32 end_addr start_addr ∣ start_addr))) ∧
    ((board_init_pmp P start_addr end_addr s).is_assert_failed = true →
      (board_init_pmp P start_addr end_addr s).state = s) ∧
    ((sub32 end_addr start_addr &&& (sub32 end_addr start_addr - 1) = 0 ∧
        start_addr &&& (sub32 end_addr start_addr - 1) = 0) ↔
      ((∃ k, sub32 end_addr start_addr = 2 ^ k) ∧ sub32 end_addr start_addr ∣ start_addr)) := by
  obtain ⟨hpos, hlt, hpred⟩ := sub32_pos hs he hne
  have hbits := pmp_bit_tests_iff start_addr _ hpos
  have hs' : start_addr % 4294967296 = start_addr := Nat.mod_eq_of_lt hs
  have he' : end_addr % 4294967296 = end_addr := Nat.mod_eq_of_lt he
  refine ⟨?_, ?_, ?_, hbits⟩
  · unfold sub32
    omega
  · rw [← not_and_or, ← hbits]
    simp only [board_init_pmp, Nat.reducePow, hs', he', hpred, Nat.pos_iff_ne_zero.mp hpos,
      if_false]
    split_ifs with h1 h2 <;> simp_all [Outcome.is_assert_failed]
  · simp only [board_init_pmp, Nat.reducePow, hs', he', hpred, Nat.pos_iff_ne_zero.mp hpos,
      if_false]
    split_ifs with h1 h2 <;> simp [Outcome.is_assert_failed, Outcome.state]

/-- Witness of C6: the region from 0x1000 to 0x1300 has length 0x300, which is not a power
of two, and the call stops at an assertion. -/
theorem board_init_pmp_fail_stop_iff_witness :
    ((sub32 0x1300 0x1000 : Nat) : Int) = ((0x1300 : Nat) - (0x1000 : Nat) : Int) % 2 ^ 32 ∧
    ((board_init_pmp evk 0x1000 0x1300 sys_reset).is_assert_failed = true ↔
      (¬ (∃ k, sub32 0x1300 0x1000 = 2 ^ k) ∨ ¬ (sub32 0x1300 0x1000 ∣ 0x1000))) ∧
    ((board_init_pmp evk 0x1000 0x1300 sys_reset).is_assert_failed = true →
      (board_init_pmp evk 0x1000 0x1300 sys_reset).state = sys_reset) ∧
    ((sub32 0x1300 0x1000 &&& (sub32 0x1300 0x1000 - 1) = 0 ∧
        0x1000 &&& (sub32 0x1300 0x1000 - 1) = 0) ↔
      ((∃ k, sub32 0x1300 0x1000 = 2 ^ k) ∧ sub32 0x1300 0x1000 ∣ 0x1000)) :=
  board_init_pmp_fail_stop_iff evk 0x1000 0x1300 sys_reset (by decide) (by decide) (by decide)

end pmp_region

section pmp_entries

/-- C7: for 32-bit addresses start and end that differ, whose 32-bit difference length is a
power of two dividing start, board_init_pmp returns, no assertion failing, and its only driver
call is one pmp_config with three entries, which become the first three PMP entries of the
register state, in this order: the NAPOT range at 0 of size 0x80000000, the NAPOT range at
0x80000000 of size 0x80000000, both with read, write and execute permission and the PMA words
left zero, then the entry whose PMP address and PMA address are both encoded from
(start, length), with read, write and execute permission and the PMA configuration
non-cacheable bufferable with atomic operations enabled. -/
theorem board_init_pmp_entries (P : Platform) (start_addr end_addr : Nat) (s : Sys)
    (hs : start_addr < 2 ^ 32) (he : end_addr < 2 ^ 32) (hne : start_addr ≠ end_addr)
    (hpow : ∃ k, sub32 end_addr start_addr = 2 ^ k)
    (halign : sub32 end_addr start_addr ∣ start_addr) :
    (board_init_pmp P start_addr end_addr s).is_assert_failed = false ∧
    (board_init_pmp P start_addr end_addr s).state.trace =
      s.trace ++ [.pmp_config ((board_init_pmp P start_addr end_addr s).state.hw.pmp.take 3)] ∧
    (board_init_pmp P start_addr end_addr s).state.hw.pmp.take 3 =
      [{ pmp_addr := P.PMP_NAPOT_ADDR 0 0x80000000,
         pmp_cfg := P.PMP_CFG P.READ_EN P.WRITE_EN P.EXECUTE_EN P.ADDR_MATCH_NAPOT P.REG_UNLOCK,
         pma_addr := 0, pma_cfg := 0 },
       { pmp_addr := P.PMP_NAPOT_ADDR 0x80000000 0x80000000,
         pmp_cfg := P.PMP_CFG P.READ_EN P.WRITE_EN P.EXECUTE_EN P.ADDR_MATCH_NAPOT P.REG_UNLOCK,
         pma_addr := 0, pma_cfg := 0 },
       { pmp_addr := P.PMP_NAPOT_ADDR start_addr (sub32 end_addr start_addr),
         pmp_cfg := P.PMP_CFG P.READ_EN P.WRITE_EN P.EXECUTE_EN P.ADDR_MATCH_NAPOT P.REG_UNLOCK,
         pma_addr := P.PMA_NAPOT_ADDR start_addr (sub32 end_addr start_addr),
         pma_cfg := P.PMA_CFG P.ADDR_MATCH_NAPOT P.MEM_TYPE_MEM_NON_CACHE_BUF P.AMO_EN }] := by
  obtain ⟨hpos, hlt, hpred⟩ := sub32_pos hs he hne
  obtain ⟨h1, h2⟩ := (pmp_bit_tests_iff start_addr _ hpos).mpr ⟨hpow, halign⟩
  have hs' : start_addr % 4294967296 = start_addr := Nat.mod_eq_of_lt hs
  have he' : end_addr % 4294967296 = end_addr := Nat.mod_eq_of_lt he
  simp [board_init_pmp, hs', he', hpred, Nat.pos_iff_ne_zero.mp hpos, h1, h2,
    Outcome.is_assert_failed, Outcome.state, pmp_config, hal, hal_call.apply]

/-- Witness of C7: the region from 0x01080000 to 0x010C0000, of length 2^18. -/
theorem board_init_pmp_entries_witness :
    (board_init_pmp evk 0x01080000 0x010C0000 sys_reset).is_assert_failed = false ∧
    (board_init_pmp evk 0x01080000 0x010C0000 sys_reset).state.trace =
      sys_reset.trace ++
        [.pmp_config ((board_init_pmp evk 0x01080000 0x010C0000 sys_reset).state.hw.pmp.take 3)] ∧
    (board_init_pmp evk 0x01080000 0x010C0000 sys_reset).state.hw.pmp.take 3 =
      [{ pmp_addr := evk.PMP_NAPOT_ADDR 0 0x80000000,
         pmp_cfg := evk.PMP_CFG evk.READ_EN evk.WRITE_EN evk.EXECUTE_EN evk.ADDR_MATCH_NAPOT
           evk.REG_UNLOCK,
         pma_addr := 0, pma_cfg := 0 },
       { pmp_addr := evk.PMP_NAPOT_ADDR 0x80000000 0x80000000,
         pmp_cfg := evk.PMP_CFG evk.READ_EN evk.WRITE_EN evk.EXECUTE_EN evk.ADDR_MATCH_NAPOT
           evk.REG_UNLOCK,
         pma_addr := 0, pma_cfg := 0 },
       { pmp_addr := evk.PMP_NAPOT_ADDR 0x01080000 (sub32 0x010C0000 0x01080000),
         pmp_cfg := evk.PMP_CFG evk.READ_EN evk.WRITE_EN evk.EXECUTE_EN evk.ADDR_MATCH_NAPOT
           evk.REG_UNLOCK,
         pma_addr := evk.PMA_NAPOT_ADDR 0x01080000 (sub32 0x010C0000 0x01080000),
         pma_cfg := evk.PMA_CFG evk.ADDR_MATCH_NAPOT evk.MEM_TYPE_MEM_NON_CACHE_BUF evk.AMO_EN }] :=
  board_init_pmp_entries evk 0x01080000 0x010C0000 sys_reset (by decide) (by decide) (by decide)
    ⟨18, by decide⟩ ⟨66, by decide⟩

end pmp_entries

section can

/-- C8: for HPM_CAN0, and for HPM_CAN1 (a different address), board_init_can_clock sets the
clock of that instance to source pll0_clk0 with divider 5, leaves source and divider of every
other clock (the other CAN instance among them) as they were, and returns the frequency of
that clock in the resulting state; when pll0_clk0 runs at 400 MHz the value returned is
80000000. -/
theorem board_init_can_clock_frequency (P : Platform) (s : Sys) :
    ((board_init_can_clock P P.HPM_CAN0 s).2.hw.clk_src .clock_can0 = .clk_src_pll0_clk0 ∧
     (board_init_can_clock P P.HPM_CAN0 s).2.hw.clk_div .clock_can0 = 5 ∧
     (∀ c, c ≠ .clock_can0 →
       (board_init_can_clock P P.HPM_CAN0 s).2.hw.clk_src c = s.hw.clk_src c ∧
       (board_init_can_clock P P.HPM_CAN0 s).2.hw.clk_div c = s.hw.clk_div c) ∧
     (board_init_can_clock P P.HPM_CAN0 s).1 =
       clock_get_frequency P .clock_can0 (board_init_can_clock P P.HPM_CAN0 s).2 ∧
     (P.clk_src_freq .clk_src_pll0_clk0 = 400000000 →
       (board_init_can_clock P P.HPM_CAN0 s).1 = 80000000)) ∧
    (P.HPM_CAN1 ≠ P.HPM_CAN0 →
     (board_init_can_clock P P.HPM_CAN1 s).2.hw.clk_src .clock_can1 = .clk_src_pll0_clk0 ∧
     (board_init_can_clock P P.HPM_CAN1 s).2.hw.clk_div .clock_can1 = 5 ∧
     (∀ c, c ≠ .clock_can1 →
       (board_init_can_clock P P.HPM_CAN1 s).2.hw.clk_src c = s.hw.clk_src c ∧
       (board_init_can_clock P P.HPM_CAN1 s).2.hw.clk_div c = s.hw.clk_div c) ∧
     (board_init_can_clock P P.HPM_CAN1 s).1 =
       clock_get_frequency P .clock_can1 (board_init_can_clock P P.HPM_CAN1 s).2 ∧
     (P.clk_src_freq .clk_src_pll0_clk0 = 400000000 →
       (board_init_can_clock P P.HPM_CAN1 s).1 = 80000000)) := by
  refine ⟨⟨?_, ?_, ?_, ?_, ?_⟩, fun hne => ⟨?_, ?_, ?_, ?_, ?_⟩⟩
  · simp [board_init_can_clock, clock_set_source_divider, hal, hal_call.apply]
  · simp [board_init_can_clock, clock_set_source_divider, hal, hal_call.apply]
  · intro c hc
    simp [board_init_can_clock, clock_set_source_divider, hal, hal_call.apply,
      Function.update_noteq hc]
  · simp [board_init_can_clock]
  · intro hf
    simp [board_init_can_clock, clock_set_source_divider, clock_get_frequency, Hw.frequency,
      hal, hal_call.apply, hf]
  · simp [board_init_can_clock, clock_set_source_divider, hal, hal_call.apply, hne]
  · simp [board_init_can_clock, clock_set_source_divider, hal, hal_call.apply, hne]
  · intro c hc
    simp [board_init_can_clock, clock_set_source_divider, hal, hal_call.apply, hne,
      Function.update_noteq hc]
  · simp [board_init_can_clock, hne]
  · intro hf
    simp [board_init_can_clock, clock_set_source_divider, clock_get_frequency, Hw.frequency,
      hal, hal_call.apply, hf, hne]

/-- Witness of C8: both CAN instances on the reset state, where pll0_clk0 is at 400 MHz. -/
theorem board_init_can_clock_frequency_witness :
    (board_init_can_clock evk evk.HPM_CAN0 sys_reset).1 = 80000000 ∧
    (board_init_can_clock evk evk.HPM_CAN1 sys_reset).1 = 80000000 ∧
    (board_init_can_clock evk evk.HPM_CAN1 sys_reset).2.hw.clk_div .clock_can1 = 5 ∧
    (board_init_can_clock evk evk.HPM_CAN1 sys_reset).2.hw.clk_div .clock_can0 =
      sys_reset.hw.clk_div .clock_can0 :=
  ⟨(board_init_can_clock_frequency evk sys_reset).1.2.2.2.2 rfl,
   ((board_init_can_clock_frequency evk sys_reset).2 (by decide)).2.2.2.2 rfl,
   ((board_init_can_clock_frequency evk sys_reset).2 (by decide)).2.1,
   (((board_init_can_clock_frequency evk sys_reset).2 (by decide)).2.2.1 .clock_can0
      (by decide)).2⟩

end can

section clock_tree

/-- Adding the clocks of a list to group 0, one call each, makes exactly these clocks members
of group 0 in addition to the former members, and changes no other register. -/
theorem foldl_clock_add_to_group_hw (P : Platform) (l : List clock_name_t) (s : Sys) :
    (l.foldl (fun s c => clock_add_to_group P c 0 s) s).hw =
      { s.hw with
        clk_group := fun g c => (decide (g = 0 ∧ c ∈ l)) || s.hw.clk_group g c } := by
  induction l generalizing s with
  | nil => simp
  | cons a l ih =>
    rw [List.foldl_cons, ih]
    ext g c <;> simp [clock_add_to_group, hal, hal_call.apply]
    by_cases hg : g = 0
    · subst hg
      by_cases hc : c = a
      · subst hc; simp
      · simp [Function.update_noteq hc, hc]
    · simp [Function.update_noteq hg, hg]

theorem foldl_clock_add_to_group_timer_cb (P : Platform) (l : List clock_name_t) (s : Sys) :
    (l.foldl (fun s c => clock_add_to_group P c 0 s) s).timer_cb = s.timer_cb := by
  induction l generalizing s with
  | nil => simp
  | cons a l ih =>
    rw [List.foldl_cons, ih]
    simp [clock_add_to_group, hal]

/-- The frequency of cpu0 that board_init_clock leaves is that of pll1_clk0 divided by 1. -/
theorem board_init_clock_cpu0_frequency (P : Platform) (s : Sys) :
    clock_get_frequency P .clock_cpu0 (board_init_clock P s) =
      P.clk_src_freq .clk_src_pll1_clk0 % 2 ^ 32 := by
  simp [board_init_clock, clock_get_frequency, Hw.frequency, clock_update_core_clock,
    clock_set_source_divider, clock_connect_group_to_cpu, hal, hal_call.apply]

/-- C9: on the register model (group membership, source and divider of each clock, preset,
crystal ramp-up time, the frequency of cpu0 computed from source and divider), when the
frequency board_init_clock gives cpu0, pll1_clk0 divided by 1, is not the oscillator
reference frequency, running board_init_clock twice leaves the registers (and the callback
variable) as running it once does, from every initial state; the second run finds cpu0 away
from the reference frequency and skips the preset, and a first run that found cpu0 at the
reference frequency has selected preset 2 and the ramp-up time 288000. -/
theorem board_init_clock_idempotent (P : Platform) (s : Sys)
    (hpll : P.clk_src_freq .clk_src_pll1_clk0 % 2 ^ 32 ≠ P.PLLCTL_SOC_PLL_REFCLK_FREQ) :
    (board_init_clock P (board_init_clock P s)).hw = (board_init_clock P s).hw ∧
    (board_init_clock P (board_init_clock P s)).timer_cb = (board_init_clock P s).timer_cb ∧
    clock_get_frequency P .clock_cpu0 (board_init_clock P s) ≠ P.PLLCTL_SOC_PLL_REFCLK_FREQ ∧
    (clock_get_frequency P .clock_cpu0 s = P.PLLCTL_SOC_PLL_REFCLK_FREQ →
      (board_init_clock P s).hw.preset = 2 ∧ (board_init_clock P s).hw.xtal_rampup = 288000 ∧
      (board_init_clock P (board_init_clock P s)).hw.preset = 2 ∧
      (board_init_clock P (board_init_clock P s)).hw.xtal_rampup = 288000) := by
  have hfreq := board_init_clock_cpu0_frequency P s
  have hskip : clock_get_frequency P .clock_cpu0 (board_init_clock P s) ≠
      P.PLLCTL_SOC_PLL_REFCLK_FREQ := by rw [hfreq]; exact hpll
  have hrun : ∀ t : Sys, clock_get_frequency P .clock_cpu0 t ≠ P.PLLCTL_SOC_PLL_REFCLK_FREQ →
      board_init_clock P t =
        clock_update_core_clock P
          (clock_set_source_divider P .clock_cpu0 .clk_src_pll1_clk0 1
            (clock_connect_group_to_cpu P 0 0
              (group0_clocks.foldl (fun s c => clock_add_to_group P c 0 s) t))) := by
    intro t ht
    simp only [board_init_clock, ht, if_false]
  have hhw : (board_init_clock P (board_init_clock P s)).hw = (board_init_clock P s).hw := by
    rw [hrun _ hskip]
    simp only [clock_update_core_clock, clock_set_source_divider, clock_connect_group_to_cpu,
      hal, hal_call.apply, foldl_clock_add_to_group_hw]
    simp only [board_init_clock]
    split_ifs <;>
    · simp only [clock_update_core_clock, clock_set_source_divider, clock_connect_group_to_cpu,
        pllctlv2_xtal_set_rampup_time, sysctl_clock_set_preset,
        hal, hal_call.apply, foldl_clock_add_to_group_hw]
      ext <;> simp [Hw.frequency]
  refine ⟨hhw, ?_, hskip, fun h0 => ?_⟩
  · simp [board_init_clock, clock_update_core_clock, clock_set_source_divider,
      clock_connect_group_to_cpu, hal, foldl_clock_add_to_group_timer_cb]
    split_ifs <;> simp [pllctlv2_xtal_set_rampup_time, sysctl_clock_set_preset, hal]
  · have h1 : (board_init_clock P s).hw.preset = 2 ∧
        (board_init_clock P s).hw.xtal_rampup = 288000 := by
      simp [board_init_clock, h0, clock_update_core_clock, clock_set_source_divider,
        clock_connect_group_to_cpu, pllctlv2_xtal_set_rampup_time, sysctl_clock_set_preset,
        hal, hal_call.apply, foldl_clock_add_to_group_hw]
    rw [hhw]
    exact ⟨h1.1, h1.2, h1.1, h1.2⟩

/-- Witness of C9: the reset state, where cpu0 runs from the 24 MHz oscillator, so that the
first run applies the preset and the second skips it. -/
theorem board_init_clock_idempotent_witness :
    (board_init_clock evk (board_init_clock evk sys_reset)).hw = (board_init_clock evk sys_reset).hw ∧
    clock_get_frequency evk .clock_cpu0 sys_reset = evk.PLLCTL_SOC_PLL_REFCLK_FREQ ∧
    clock_get_frequency evk .clock_cpu0 (board_init_clock evk sys_reset) ≠
      evk.PLLCTL_SOC_PLL_REFCLK_FREQ ∧
    (board_init_clock evk sys_reset).hw.preset = 2 ∧
    (board_init_clock evk (board_init_clock evk sys_reset)).hw.preset = 2 :=
  ⟨(board_init_clock_idempotent evk sys_reset (by decide)).1,
   by decide,
   (board_init_clock_idempotent evk sys_reset (by decide)).2.2.1,
   ((board_init_clock_idempotent evk sys_reset (by decide)).2.2.2 (by decide)).1,
   ((board_init_clock_idempotent evk sys_reset (by decide)).2.2.2 (by decide)).2.2.1⟩

end clock_tree

section timer

theorem gptmr_check_status_two_pow (ptr bit : Nat) (s : Sys) :
    gptmr_check_status ptr (2 ^ bit) s = (s.hw.gptmr_sr ptr).testBit bit := by
  unfold gptmr_check_status
  rw [Nat.and_two_pow]
  cases h : (s.hw.gptmr_sr ptr).testBit bit
  · have : (0 : Nat) ≠ 2 ^ bit := (Nat.pos_pow_of_pos bit (by norm_num)).ne
    simpa using this
  · simp

theorem testBit_clear_two_pow (sr bit i : Nat) :
    (sr ^^^ (sr &&& 2 ^ bit)).testBit i = (decide (i ≠ bit) && sr.testBit i) := by
  rw [Nat.testBit_xor, Nat.testBit_and, Nat.testBit_two_pow]
  by_cases h : bit = i
  · subst h; cases sr.testBit bit <;> simp
  · have h2 : i ≠ bit := fun e => h e.symm
    cases sr.testBit i <;> simp [h, h2]

/-- C10: board_timer_create stores its argument cb in timer_cb; in a state where timer_cb is
the callback so registered, one run of board_timer_isr does this. If the reload flag of the
callback timer channel is set in the status register, the driver calls of the run are the
clearing of that flag followed by one invocation of cb, in this order, and on return the flag
is clear, every other status bit of the timer is as before and the status registers of the
other timers are unchanged. If the flag is not set, the run makes no call and changes
nothing. -/
theorem board_timer_isr_dispatch (P : Platform) (s0 s : Sys) (ms cb : Nat)
    (hreg : s.timer_cb = (board_timer_create P ms cb s0).timer_cb) :
    (board_timer_create P ms cb s0).timer_cb = cb ∧
    ((s.hw.gptmr_sr P.BOARD_CALLBACK_TIMER).testBit (P.rld_stat_bit P.BOARD_CALLBACK_TIMER_CH) = true →
      (board_timer_isr P s).trace =
        s.trace ++
          [.gptmr_clear_status P.BOARD_CALLBACK_TIMER
             (GPTMR_CH_RLD_STAT_MASK P P.BOARD_CALLBACK_TIMER_CH),
           .timer_cb cb] ∧
      ((board_timer_isr P s).hw.gptmr_sr P.BOARD_CALLBACK_TIMER).testBit
        (P.rld_stat_bit P.BOARD_CALLBACK_TIMER_CH) = false ∧
      (∀ i, i ≠ P.rld_stat_bit P.BOARD_CALLBACK_TIMER_CH →
        ((board_timer_isr P s).hw.gptmr_sr P.BOARD_CALLBACK_TIMER).testBit i =
          (s.hw.gptmr_sr P.BOARD_CALLBACK_TIMER).testBit i) ∧
      (∀ ptr, ptr ≠ P.BOARD_CALLBACK_TIMER →
        (board_timer_isr P s).hw.gptmr_sr ptr = s.hw.gptmr_sr ptr)) ∧
    ((s.hw.gptmr_sr P.BOARD_CALLBACK_TIMER).testBit (P.rld_stat_bit P.BOARD_CALLBACK_TIMER_CH) = false →
      board_timer_isr P s = s) := by
  have hcb : (board_timer_create P ms cb s0).timer_cb = cb := by
    simp [board_timer_create, gptmr_start_counter, intc_m_enable_irq_with_priority,
      gptmr_enable_irq, gptmr_channel_config, clock_add_to_group, hal]
  rw [hcb] at hreg
  refine ⟨hcb, fun hset => ⟨?_, ?_, ?_, ?_⟩, fun hclr => ?_⟩
  · simp [board_timer_isr, GPTMR_CH_RLD_STAT_MASK, gptmr_check_status_two_pow, hset,
      gptmr_clear_status, call_timer_cb, hal, hreg]
  · simp only [board_timer_isr, GPTMR_CH_RLD_STAT_MASK, gptmr_check_status_two_pow, hset,
      gptmr_clear_status, call_timer_cb, hal, hal_call.apply, if_true, Function.update_same,
      testBit_clear_two_pow]
    simp
  · intro i hi
    simp only [board_timer_isr, GPTMR_CH_RLD_STAT_MASK, gptmr_check_status_two_pow, hset,
      gptmr_clear_status, call_timer_cb, hal, hal_call.apply, if_true, Function.update_same,
      testBit_clear_two_pow]
    simp [hi]
  · intro ptr hptr
    simp [board_timer_isr, GPTMR_CH_RLD_STAT_MASK, gptmr_check_status_two_pow, hset,
      gptmr_clear_status, call_timer_cb, hal, hal_call.apply, Function.update_noteq hptr]
  · simp [board_timer_isr, GPTMR_CH_RLD_STAT_MASK, gptmr_check_status_two_pow, hclr]

/-- Witness of C10: callback 7 registered with a period of 10 ms on the reset state, after
which the timer status becomes 0x13 (reload flag of channel 1 at bit 4, and bits 0 and 1):
the run clears the flag, then calls 7, and the other bits stay. -/
theorem board_timer_isr_dispatch_witness :
    (board_timer_isr evk
        (timer_status_becomes evk.BOARD_CALLBACK_TIMER 0x13
          (board_timer_create evk 10 7 sys_reset))).trace =
      (timer_status_becomes evk.BOARD_CALLBACK_TIMER 0x13
          (board_timer_create evk 10 7 sys_reset)).trace ++
        [.gptmr_clear_status evk.BOARD_CALLBACK_TIMER
           (GPTMR_CH_RLD_STAT_MASK evk evk.BOARD_CALLBACK_TIMER_CH),
         .timer_cb 7] ∧
    ((board_timer_isr evk
        (timer_status_becomes evk.BOARD_CALLBACK_TIMER 0x13
          (board_timer_create evk 10 7 sys_reset))).hw.gptmr_sr evk.BOARD_CALLBACK_TIMER).testBit
      (evk.rld_stat_bit evk.BOARD_CALLBACK_TIMER_CH) = false :=
  ⟨((board_timer_isr_dispatch evk sys_reset
      (timer_status_becomes evk.BOARD_CALLBACK_TIMER 0x13 (board_timer_create evk 10 7 sys_reset))
      10 7 rfl).2.1 (by decide)).1,
   ((board_timer_isr_dispatch evk sys_reset
      (timer_status_becomes evk.BOARD_CALLBACK_TIMER 0x13 (board_timer_create evk 10 7 sys_reset))
      10 7 rfl).2.1 (by decide)).2.1⟩

end timer

section sdxc_frequency

/-- C11: for the handle HPM_SDXC0, with pll0_clk0 at 400 MHz, after board_sd_configure_clock
the SDXC clock reads back as 200 MHz and the divider read back is the one just programmed,
one of 600, 8, 4, 2, 1 and so not zero; the value returned is 200000000 divided by that
divider, for every request; and a request of at most 208 MHz gets a frequency that does not
exceed the upper bound of its tier (400 kHz, 25 MHz, 50 MHz, 100 MHz, 208 MHz). -/
theorem board_sd_configure_clock_actual_freq (P : Platform) (s : Sys) (freq : Nat)
    (hpll : P.clk_src_freq .clk_src_pll0_clk0 = 400000000) :
    clock_get_frequency P .clock_sdxc0 (board_sd_configure_clock P P.HPM_SDXC0 freq s).2 =
      200000000 ∧
    sdxc_get_clock_divider P.HPM_SDXC0 (board_sd_configure_clock P P.HPM_SDXC0 freq s).2 =
      (if freq ≤ 400000 then 600 else if freq ≤ 25000000 then 8
       else if freq ≤ 50000000 then 4 else if freq ≤ 100000000 then 2
       else if freq ≤ 208000000 then 1 else 8) ∧
    sdxc_get_clock_divider P.HPM_SDXC0 (board_sd_configure_clock P P.HPM_SDXC0 freq s).2 ∈
      [600, 8, 4, 2, 1] ∧
    sdxc_get_clock_divider P.HPM_SDXC0 (board_sd_configure_clock P P.HPM_SDXC0 freq s).2 ≠ 0 ∧
    (board_sd_configure_clock P P.HPM_SDXC0 freq s).1 =
      200000000 /
        sdxc_get_clock_divider P.HPM_SDXC0 (board_sd_configure_clock P P.HPM_SDXC0 freq s).2 ∧
    (freq ≤ 400000 → (board_sd_configure_clock P P.HPM_SDXC0 freq s).1 ≤ 400000) ∧
    (400000 < freq → freq ≤ 25000000 →
      (board_sd_configure_clock P P.HPM_SDXC0 freq s).1 ≤ 25000000) ∧
    (25000000 < freq → freq ≤ 50000000 →
      (board_sd_configure_clock P P.HPM_SDXC0 freq s).1 ≤ 50000000) ∧
    (50000000 < freq → freq ≤ 100000000 →
      (board_sd_configure_clock P P.HPM_SDXC0 freq s).1 ≤ 100000000) ∧
    (100000000 < freq → freq ≤ 208000000 →
      (board_sd_configure_clock P P.HPM_SDXC0 freq s).1 ≤ 208000000) := by
  have hsrc : clock_get_frequency P .clock_sdxc0 (board_sd_configure_clock P P.HPM_SDXC0 freq s).2 =
      200000000 := by
    simp only [board_sd_configure_clock, sdxc_enable_sd_clock, clock_set_source_divider,
      sdxc_enable_freq_selection, sdxc_set_clock_divider, clock_get_frequency, Hw.frequency,
      hal, hal_call.apply]
    split_ifs <;> simp_all
  have hdiv : sdxc_get_clock_divider P.HPM_SDXC0 (board_sd_configure_clock P P.HPM_SDXC0 freq s).2 =
      (if freq ≤ 400000 then 600 else if freq ≤ 25000000 then 8
       else if freq ≤ 50000000 then 4 else if freq ≤ 100000000 then 2
       else if freq ≤ 208000000 then 1 else 8) := by
    simp only [board_sd_configure_clock, sdxc_enable_sd_clock, clock_set_source_divider,
      sdxc_enable_freq_selection, sdxc_set_clock_divider, sdxc_get_clock_divider,
      hal, hal_call.apply]
    split_ifs <;> simp_all
  have hret : (board_sd_configure_clock P P.HPM_SDXC0 freq s).1 =
      clock_get_frequency P .clock_sdxc0 (board_sd_configure_clock P P.HPM_SDXC0 freq s).2 /
        sdxc_get_clock_divider P.HPM_SDXC0 (board_sd_configure_clock P P.HPM_SDXC0 freq s).2 := by
    simp [board_sd_configure_clock]
  rw [hsrc] at hret
  rw [hret, hdiv]
  refine ⟨hsrc, rfl, ?_, ?_, rfl, ?_, ?_, ?_, ?_, ?_⟩
  · split_ifs <;> simp
  · split_ifs <;> simp
  · intro h; simp [h]
  · intro h1 h2
    have : ¬ freq ≤ 400000 := by omega
    simp [this, h2]
  · intro h1 h2
    have : ¬ freq ≤ 400000 := by omega
    have : ¬ freq ≤ 25000000 := by omega
    simp [*]
  · intro h1 h2
    have : ¬ freq ≤ 400000 := by omega
    have : ¬ freq ≤ 25000000 := by omega
    have : ¬ freq ≤ 50000000 := by omega
    simp [*]
  · intro h1 h2
    have : ¬ freq ≤ 400000 := by omega
    have : ¬ freq ≤ 25000000 := by omega
    have : ¬ freq ≤ 50000000 := by omega
    have : ¬ freq ≤ 100000000 := by omega
    simp [*]

/-- Witness of C11: a request of 400 kHz on the reset state returns 333333 Hz, 200 MHz divided
by 600, which is below 400 kHz. -/
theorem board_sd_configure_clock_actual_freq_witness :
    evk.clk_src_freq .clk_src_pll0_clk0 = 400000000 ∧
    (board_sd_configure_clock evk evk.HPM_SDXC0 400000 sys_reset).1 =
      200000000 /
        sdxc_get_clock_divider evk.HPM_SDXC0
          (board_sd_configure_clock evk evk.HPM_SDXC0 400000 sys_reset).2 ∧
    (board_sd_configure_clock evk evk.HPM_SDXC0 400000 sys_reset).1 ≤ 400000 :=
  ⟨rfl,
   (board_sd_configure_clock_actual_freq evk sys_reset 400000 rfl).2.2.2.2.1,
   (board_sd_configure_clock_actual_freq evk sys_reset 400000 rfl).2.2.2.2.2.1 (by decide)⟩

end sdxc_frequency

section timer_create

/-- Whole milliseconds of a clock whose frequency is a multiple of 1000: the quotient by
1000 times `ms` is the exact number of ticks. -/
theorem ticks_of_dvd (f ms : Nat) (h : 1000 ∣ f) : f / 1000 * ms = f * ms / 1000 := by
  obtain ⟨k, rfl⟩ := h
  rw [Nat.mul_div_cancel_left k (by norm_num : 0 < 1000), Nat.mul_assoc,
    Nat.mul_div_cancel_left (k * ms) (by norm_num : 0 < 1000)]

/-- C12: board_timer_create(ms, cb) leaves in the reload register of the callback timer
channel the value (gptmr_freq / 1000 * ms) mod 2^32, gptmr_freq being the frequency of the
clock of the callback timer (which the call does not change); its driver calls are, in order,
the clock added to group 0, the channel configured with that reload value, the reload
interrupt enabled, the interrupt enabled at priority 1, the counter started. When gptmr_freq
is a multiple of 1000 and gptmr_freq / 1000 * ms is below 2^32, the reload value is the exact
number of ticks gptmr_freq * ms / 1000. The call stores cb in timer_cb, and a run of
board_timer_isr that finds the reload flag set afterwards invokes cb. -/
theorem board_timer_create_reload (P : Platform) (s : Sys) (ms cb : Nat) :
    (board_timer_create P ms cb s).hw.gptmr_reload P.BOARD_CALLBACK_TIMER P.BOARD_CALLBACK_TIMER_CH =
      (clock_get_frequency P P.BOARD_CALLBACK_TIMER_CLK_NAME s / 1000 * ms) % 2 ^ 32 ∧
    clock_get_frequency P P.BOARD_CALLBACK_TIMER_CLK_NAME (board_timer_create P ms cb s) =
      clock_get_frequency P P.BOARD_CALLBACK_TIMER_CLK_NAME s ∧
    (board_timer_create P ms cb s).trace =
      s.trace ++
        [.clock_add_to_group P.BOARD_CALLBACK_TIMER_CLK_NAME 0,
         .gptmr_channel_config P.BOARD_CALLBACK_TIMER P.BOARD_CALLBACK_TIMER_CH
           ((clock_get_frequency P P.BOARD_CALLBACK_TIMER_CLK_NAME s / 1000 * ms) % 2 ^ 32) false,
         .gptmr_enable_irq P.BOARD_CALLBACK_TIMER
           (GPTMR_CH_RLD_IRQ_MASK P P.BOARD_CALLBACK_TIMER_CH),
         .intc_m_enable_irq_with_priority P.BOARD_CALLBACK_TIMER_IRQ 1,
         .gptmr_start_counter P.BOARD_CALLBACK_TIMER P.BOARD_CALLBACK_TIMER_CH] ∧
    (1000 ∣ clock_get_frequency P P.BOARD_CALLBACK_TIMER_CLK_NAME s →
      clock_get_frequency P P.BOARD_CALLBACK_TIMER_CLK_NAME s / 1000 * ms < 2 ^ 32 →
      (board_timer_create P ms cb s).hw.gptmr_reload P.BOARD_CALLBACK_TIMER
          P.BOARD_CALLBACK_TIMER_CH =
        clock_get_frequency P P.BOARD_CALLBACK_TIMER_CLK_NAME s * ms / 1000) ∧
    (board_timer_create P ms cb s).timer_cb = cb ∧
    (∀ sr : Nat, sr.testBit (P.rld_stat_bit P.BOARD_CALLBACK_TIMER_CH) = true →
      (board_timer_isr P
          (timer_status_becomes P.BOARD_CALLBACK_TIMER sr (board_timer_create P ms cb s))).trace =
        (board_timer_create P ms cb s).trace ++
          [.gptmr_clear_status P.BOARD_CALLBACK_TIMER
             (GPTMR_CH_RLD_STAT_MASK P P.BOARD_CALLBACK_TIMER_CH),
           .timer_cb cb]) := by
  have hreload :
      (board_timer_create P ms cb s).hw.gptmr_reload P.BOARD_CALLBACK_TIMER
          P.BOARD_CALLBACK_TIMER_CH =
        (clock_get_frequency P P.BOARD_CALLBACK_TIMER_CLK_NAME s / 1000 * ms) % 2 ^ 32 := by
    simp [board_timer_create, gptmr_start_counter, intc_m_enable_irq_with_priority,
      gptmr_enable_irq, gptmr_channel_config, clock_add_to_group, clock_get_frequency,
      Hw.frequency, hal, hal_call.apply]
  have hcb : (board_timer_create P ms cb s).timer_cb = cb := by
    simp [board_timer_create, gptmr_start_counter, intc_m_enable_irq_with_priority,
      gptmr_enable_irq, gptmr_channel_config, clock_add_to_group, hal]
  refine ⟨hreload, ?_, ?_, ?_, hcb, ?_⟩
  · simp [board_timer_create, gptmr_start_counter, intc_m_enable_irq_with_priority,
      gptmr_enable_irq, gptmr_channel_config, clock_add_to_group, clock_get_frequency,
      Hw.frequency, hal, hal_call.apply]
  · simp [board_timer_create, gptmr_start_counter, intc_m_enable_irq_with_priority,
      gptmr_enable_irq, gptmr_channel_config, clock_add_to_group, clock_get_frequency,
      Hw.frequency, hal, hal_call.apply]
  · intro hdvd hlt
    rw [hreload, Nat.mod_eq_of_lt hlt, ticks_of_dvd _ _ hdvd]
  · intro sr hsr
    have hflag : gptmr_check_status P.BOARD_CALLBACK_TIMER
        (GPTMR_CH_RLD_STAT_MASK P P.BOARD_CALLBACK_TIMER_CH)
        (timer_status_becomes P.BOARD_CALLBACK_TIMER sr (board_timer_create P ms cb s)) = true := by
      rw [GPTMR_CH_RLD_STAT_MASK, gptmr_check_status_two_pow]
      simpa [timer_status_becomes] using hsr
    simp only [board_timer_isr, hflag, if_true, gptmr_clear_status, call_timer_cb, hal]
    simp [timer_status_becomes, hcb]

/-- Witness of C12: a period of 10 ms and callback 7 on the reset state, where the timer
clock runs at 24 MHz: the reload value is 240000 ticks. -/
theorem board_timer_create_reload_witness :
    clock_get_frequency evk evk.BOARD_CALLBACK_TIMER_CLK_NAME sys_reset = 24000000 ∧
    (board_timer_create evk 10 7 sys_reset).hw.gptmr_reload evk.BOARD_CALLBACK_TIMER
        evk.BOARD_CALLBACK_TIMER_CH =
      clock_get_frequency evk evk.BOARD_CALLBACK_TIMER_CLK_NAME sys_reset * 10 / 1000 ∧
    (board_timer_isr evk
        (timer_status_becomes evk.BOARD_CALLBACK_TIMER 0x10
          (board_timer_create evk 10 7 sys_reset))).trace =
      (board_timer_create evk 10 7 sys_reset).trace ++
        [.gptmr_clear_status evk.BOARD_CALLBACK_TIMER
           (GPTMR_CH_RLD_STAT_MASK evk evk.BOARD_CALLBACK_TIMER_CH),
         .timer_cb 7] :=
  ⟨by decide,
   (board_timer_create_reload evk sys_reset 10 7).2.2.2.1 (by decide) (by decide),
   (board_timer_create_reload evk sys_reset 10 7).2.2.2.2.2 0x10 (by decide)⟩

end timer_create

end Hpm6300evk
